import Mathlib

/-!
A shallow embedding of the `tggifts.common` package: the domain record types
(`common/models/domain/*.py`) and the generic Firestore access layer
(`common/services/firebase/firebase_service.py`), together with proofs of the
access-layer and record-level contracts.

Modelling conventions:
* Python `int` is `Int`; Python `float` values produced by dividing integer
  "hundredths" fields or by parsing decimal price strings are modelled exactly
  as `Rat` (the source only ever produces such floats from decimal literals).
* `datetime` values are modelled as abstract `Nat` instants.
* A Firestore document is an association list of field name / value pairs;
  a collection is an association list from document id to such a field map.
* Python exceptions are modelled with `Except` / `Option` results; a method
  that mutates `self` and may raise is modelled as a function returning the
  post-state paired with an optional error, where the post-state equals the
  input state whenever the error is present (CPython raises before the
  corresponding assignment is performed in every such site embedded here).
-/

/-! ### Character-list string primitives

Executable stand-ins for Python's `str.startswith` and substring containment,
used to state properties of exception messages. -/

/-- `listPrefixB p l` decides whether `p` is a prefix of `l`. -/
def listPrefixB : List Char → List Char → Bool
  | [], _ => true
  | _ :: _, [] => false
  | c :: cs, d :: ds => c == d && listPrefixB cs ds

/-- `listContainsB needle hay` decides whether `needle` occurs contiguously in `hay`. -/
def listContainsB (needle : List Char) : List Char → Bool
  | [] => needle.isEmpty
  | c :: rest => listPrefixB needle (c :: rest) || listContainsB needle rest

/-- Substring containment on `String`, via the underlying character lists. -/
def strContainsB (hay needle : String) : Bool :=
  listContainsB needle.data hay.data

/-- Model of Python `str.startswith`. -/
def strStartsWithB (v p : String) : Bool :=
  listPrefixB p.data v.data

/-! ### Python numeric-literal parsing

Model of CPython `float(str)` restricted to finite decimal literals with an
optional sign, decimal point and exponent (the forms the repository's price
strings take; `inf`/`nan`, underscores and surrounding whitespace are outside
the model). The result is the exact rational value of the literal. -/

/-- Numeric value of a list of decimal digit characters. -/
def digitsVal (ds : List Char) : Nat :=
  ds.foldl (fun a c => a * 10 + (c.toNat - 48)) 0

/-- The value of a parsed literal is kept in the structural form
`(negative?, D, p)` standing for `(-1)^neg * D / 10^p`, so that parsing is
kernel-computable; `ratOfParts` produces the rational value. -/
abbrev FloatParts := Bool × Nat × Nat

/-- Apply a decimal exponent `e` (negated when `negExp`) to `D / 10^p`. -/
def applyExp (D p : Nat) (negExp : Bool) (e : Nat) : Nat × Nat :=
  if negExp then (D, p + e)
  else if e ≤ p then (D, p - e)
  else (D * 10 ^ (e - p), 0)

/-- Parse an optional exponent part (`e`/`E`, optional sign, digits) and apply
it to the mantissa `D / 10^p`; anything else fails. -/
def parseExpPart (D p : Nat) : List Char → Option (Nat × Nat)
  | [] => some (D, p)
  | 'e' :: rest => parseExpSigned D p rest
  | 'E' :: rest => parseExpSigned D p rest
  | _ => none
where
  parseExpSigned (D p : Nat) : List Char → Option (Nat × Nat)
    | '+' :: rest => parseExpDigits D p false rest
    | '-' :: rest => parseExpDigits D p true rest
    | rest => parseExpDigits D p false rest
  parseExpDigits (D p : Nat) (negExp : Bool) (rest : List Char) : Option (Nat × Nat) :=
    if rest.isEmpty ∨ ¬(rest.all Char.isDigit) then none
    else some (applyExp D p negExp (digitsVal rest))

/-- Parse an unsigned decimal literal `digits [. digits] [exp]`. -/
def pyFloatCore (cs : List Char) : Option (Nat × Nat) :=
  let ds1 := cs.takeWhile Char.isDigit
  let rest1 := cs.dropWhile Char.isDigit
  match rest1 with
  | '.' :: rest2 =>
    let ds2 := rest2.takeWhile Char.isDigit
    let rest3 := rest2.dropWhile Char.isDigit
    if ds1.isEmpty ∧ ds2.isEmpty then none
    else parseExpPart (digitsVal ds1 * 10 ^ ds2.length + digitsVal ds2) ds2.length rest3
  | _ => if ds1.isEmpty then none else parseExpPart (digitsVal ds1) 0 rest1

/-- Structural parse of a Python float literal (optional sign, then
`pyFloatCore`). -/
def pyFloatParts (s : String) : Option FloatParts :=
  match s.data with
  | '+' :: rest => (pyFloatCore rest).map (fun dp => (false, dp))
  | '-' :: rest => (pyFloatCore rest).map (fun dp => (true, dp))
  | cs => (pyFloatCore cs).map (fun dp => (false, dp))

/-- The rational value of parsed float parts. -/
def ratOfParts : FloatParts → Rat
  | (neg, D, p) => if neg then -((D : Rat) / 10 ^ p) else (D : Rat) / 10 ^ p

/-- Model of Python `float(s)` on finite decimal literals: `none` models a
`ValueError` ("could not convert string to float"). -/
def pyFloat (s : String) : Option Rat :=
  (pyFloatParts s).map ratOfParts

/-- Model of Python `int(x)` on a float/rational: truncation toward zero. -/
def intOfRatTrunc (q : Rat) : Int :=
  q.num.tdiv q.den

/-- Python truthiness of `Optional[str]`: `None` and `""` are falsy. -/
def pyFalsyOptStr : Option String → Bool
  | none => true
  | some s => s.isEmpty

/-! ### Enumerated field types (`wallet.py`, `gift.py`, `case.py`)

Each Python `str`-valued `Enum` is an inductive type plus the tag string of
each member and the pydantic validation step `fromStr` that accepts exactly
the member values. -/

inductive Currency where
  | TON
  | COIN
  | XTR
deriving DecidableEq, Repr

/-- The serialized tag of a `Currency` member (its Python enum value). -/
def Currency.tag : Currency → String
  | .TON => "TON"
  | .COIN => "COIN"
  | .XTR => "XTR"

/-- Pydantic validation of a string against `Currency`: accepts exactly the
member values. -/
def Currency.fromStr (s : String) : Option Currency :=
  if s = "TON" then some .TON
  else if s = "COIN" then some .COIN
  else if s = "XTR" then some .XTR
  else none

inductive TopUpStatus where
  | PENDING
  | PROCESSING
  | SUCCESS
  | FAILED
deriving DecidableEq, Repr

def TopUpStatus.fromStr (s : String) : Option TopUpStatus :=
  if s = "PENDING" then some .PENDING
  else if s = "PROCESSING" then some .PROCESSING
  else if s = "SUCCESS" then some .SUCCESS
  else if s = "FAILED" then some .FAILED
  else none

inductive GiftType where
  | PORTALS_GIFT
  | BALANCE
deriving DecidableEq, Repr

def GiftType.fromStr (s : String) : Option GiftType :=
  if s = "PORTALS_GIFT" then some .PORTALS_GIFT
  else if s = "BALANCE" then some .BALANCE
  else none

inductive CaseOpeningStatus where
  | NEW
  | REDEPED
  | INVENTORY
deriving DecidableEq, Repr

def CaseOpeningStatus.fromStr (s : String) : Option CaseOpeningStatus :=
  if s = "NEW" then some .NEW
  else if s = "REDEPED" then some .REDEPED
  else if s = "INVENTORY" then some .INVENTORY
  else none

/-! ### Legacy currency prefix normalization (`wallet.py`)

`Wallet._normalize_currency` / `Transaction._normalize_currency`: if the raw
string starts with `"Currency."` (the enum type name followed by a dot), the
part after the first dot is kept; `TopUpRequest` declares no such validator. -/

/-- `v.split(".", 1)[1]`: everything after the first dot of `v`. -/
def afterFirstDot (v : String) : String :=
  String.mk ((v.data.dropWhile (fun c => c ≠ '.')).drop 1)

/-- The `_normalize_currency` validator body shared by `Wallet` and
`Transaction`. -/
def normalizeCurrency (v : String) : String :=
  if strStartsWithB v "Currency." then afterFirstDot v else v

/-! ### Firestore values and field maps

A document's data (`doc.to_dict()` / `model_dump`) is a finite map from field
names to store values, modelled as an association list (first binding wins,
as for a Python dict no key occurs twice when produced by the source). -/

inductive Value where
  | str (s : String)
  | int (n : Int)
  | bool (b : Bool)
  | null
deriving DecidableEq, Repr

abbrev FieldMap := List (String × Value)

/-- Dictionary lookup: the first binding of `k`, if any. -/
def dictGet (m : FieldMap) (k : String) : Option Value :=
  match m with
  | [] => none
  | (k', v) :: rest => if k' = k then some v else dictGet rest k

/-- Dictionary assignment `m[k] = v`: replaces the first binding of `k`, or
appends a new binding. -/
def dictSet (m : FieldMap) (k : String) (v : Value) : FieldMap :=
  match m with
  | [] => [(k, v)]
  | (k', v') :: rest => if k' = k then (k, v) :: rest else (k', v') :: dictSet rest k v

/-! ### Domain record types

`common/models/domain/{case,gift,wallet}.py`. Every `FirebaseObject` carries
`id : Optional[str] = None`; integer money-like fields are Python ints. -/

structure Case where
  id : Option String := none
  name : String
  cost : Int
  image_url : String
  is_active : Bool
deriving DecidableEq, Repr

def Case.collection_name : String := "cases"

/-- `Case.costf`: `self.cost / 100.0 if self.cost else 0.0`. -/
def Case.costf (c : Case) : Rat :=
  if c.cost ≠ 0 then (c.cost : Rat) / 100 else 0

structure CaseOpening where
  id : Option String := none
  user_id : String
  case_id : String
  gift_id : String
  gift_type : GiftType
  gift_volume : Int
  status : CaseOpeningStatus
  open_at : Nat
deriving DecidableEq, Repr

def CaseOpening.collection_name : String := "case_openings"

/-- `CaseOpening.gift_volumef`: `self.gift_volume / 100.0 if self.gift_volume else 0.0`. -/
def CaseOpening.gift_volumef (c : CaseOpening) : Rat :=
  if c.gift_volume ≠ 0 then (c.gift_volume : Rat) / 100 else 0

structure Attribute where
  type : String
  value : String
  rarity_per_mille : Rat
deriving DecidableEq, Repr

structure PortalsNFT where
  id : String
  tg_id : String
  collection_id : String
  external_collection_number : Int
  name : String
  photo_url : String
  price : Option String := none
  attributes : Option (List Attribute) := some []
  listed_at : Option String := none
  status : Option String := none
  animation_url : Option String := none
  emoji_id : Option String := none
  has_animation : Option Bool := none
  floor_price : Option String := none
  unlocks_at : Option String := none
  is_owned : Option Bool := none
deriving DecidableEq, Repr

/-- `PortalsNFT.pricef`:
`float(self.price) if self.price is not None else 0.0`, with a
`ValueError` from the conversion caught and turned into `0.0`. -/
def PortalsNFT.pricef (p : PortalsNFT) : Rat :=
  match p.price with
  | none => 0
  | some s =>
    match pyFloat s with
    | none => 0
    | some q => q

structure TONReward where
  id : String
  name : String
  volume : Int
  photo_url : String
deriving DecidableEq, Repr

/-- The `PortalsNFT | TONReward` union stored in `Gift.payload`. -/
inductive GiftPayload where
  | portals (p : PortalsNFT)
  | ton (r : TONReward)
deriving DecidableEq, Repr

structure Gift where
  id : Option String := none
  case_id : String
  name : String
  prob : Int
  volume : Int
  is_active : Bool
  type : GiftType
  payload : Option GiftPayload := none
deriving DecidableEq, Repr

def Gift.collection_name : String := "gifts"

/-- `Gift.probf`: `self.prob / 100.0 if self.prob else 0.0`. -/
def Gift.probf (g : Gift) : Rat :=
  if g.prob ≠ 0 then (g.prob : Rat) / 100 else 0

/-- `Gift.volumef`: `self.volume / 100.0 if self.volume else 0.0`. -/
def Gift.volumef (g : Gift) : Rat :=
  if g.volume ≠ 0 then (g.volume : Rat) / 100 else 0

/-- Python exceptions that `Gift.update_payload` can raise. -/
inductive PyErr where
  | typeError (msg : String)
  | valueError (msg : String)
deriving DecidableEq, Repr

/-- `float(payload.price)` inside `update_payload`: `float(None)` raises
`TypeError`; an unparsable string raises `ValueError` (note: `pricef`'s
lenient `0.0` fallback is NOT used here). -/
def floatOfPrice (price : Option String) : Except PyErr Rat :=
  match price with
  | none => .error (.typeError "float() argument must be a string or a real number, not NoneType")
  | some s =>
    match pyFloat s with
    | none => .error (.valueError ("could not convert string to float: " ++ s))
    | some q => .ok q

/-- A runtime argument to `update_payload`: the annotation says
`PortalsNFT | TONReward` but the `isinstance` chain must also handle any
other runtime value (`other`). -/
inductive UpdateArg where
  | portals (p : PortalsNFT)
  | ton (r : TONReward)
  | other
deriving Repr

/-- `Gift.update_payload(payload)`: returns the post-state of the gift and an
optional raised exception. In the `PortalsNFT` branch the assignment target
`self.volume = int(float(payload.price) * 100)` evaluates its right-hand side
first, so a conversion error leaves both `volume` and `payload` untouched. -/
def Gift.update_payload (g : Gift) (a : UpdateArg) : Gift × Option PyErr :=
  match a with
  | .portals p =>
    match floatOfPrice p.price with
    | .error e => (g, some e)
    | .ok q => ({ g with volume := intOfRatTrunc (q * 100), payload := some (.portals p) }, none)
  | .ton r => ({ g with volume := r.volume, payload := some (.ton r) }, none)
  | .other => (g, some (.valueError "Payload must be an instance of PortalsNFT or TONReward."))

structure Wallet where
  id : Option String := none
  user_id : String
  balance : Int := 0
  currency : Currency
  last_updated : Option Nat := none
deriving DecidableEq, Repr

def Wallet.collection_name : String := "wallets"

/-- Stand-in for the pydantic `ValidationError` on an enum field. -/
def currencyValidationError : String := "validation error: currency"

def statusValidationError : String := "validation error: status"

/-- Pydantic construction of a `Wallet` from raw field values: the
`_normalize_currency` validator (mode `before`) runs on the raw currency
string, then the enum validation. -/
def Wallet.ofFields (user_id : String) (balance : Int) (currencyRaw : String)
    (last_updated : Option Nat) (id : Option String) : Except String Wallet :=
  match Currency.fromStr (normalizeCurrency currencyRaw) with
  | none => .error currencyValidationError
  | some c =>
    .ok { id := id, user_id := user_id, balance := balance, currency := c,
          last_updated := last_updated }

structure Transaction where
  id : Option String := none
  from_wallet_id : String
  to_wallet_id : String
  amount : Int
  currency : Currency
  timestamp : Nat
  description : String
deriving DecidableEq, Repr

def Transaction.collection_name : String := "transactions"

/-- Pydantic construction of a `Transaction`. The class body's default
`timestamp: datetime = datetime.now()` is evaluated once, when `wallet.py` is
imported: `moduleLoadTime` is that instant. `now` is the wall clock at the
moment of construction; the source never consults it for the default, so it
is an unused parameter of the model. `Transaction` declares the
`_normalize_currency` validator. -/
def Transaction.ofFields (moduleLoadTime now : Nat) (from_wallet_id to_wallet_id : String)
    (amount : Int) (currencyRaw : String) (timestampField : Option Nat)
    (description : String) (id : Option String) : Except String Transaction :=
  let _ := now
  match Currency.fromStr (normalizeCurrency currencyRaw) with
  | none => .error currencyValidationError
  | some c =>
    .ok { id := id, from_wallet_id := from_wallet_id, to_wallet_id := to_wallet_id,
          amount := amount, currency := c,
          timestamp := timestampField.getD moduleLoadTime,
          description := description }

structure TopUpRequest where
  id : Option String := none
  user_id : String
  amount : Int
  provider : String
  currency : Currency
  external_id : String
  status : TopUpStatus
  payload : Option String := none
  info : Option FieldMap := none
  created_at : Nat
deriving DecidableEq, Repr

def TopUpRequest.collection_name : String := "topup_requests"

/-- Pydantic construction of a `TopUpRequest`. Unlike `Wallet` and
`Transaction`, the class declares NO `_normalize_currency` validator, so the
raw currency string goes straight to enum validation. The default
`created_at: datetime = datetime.now()` is evaluated at import time
(`moduleLoadTime`), as for `Transaction`. -/
def TopUpRequest.ofFields (moduleLoadTime now : Nat) (user_id : String) (amount : Int)
    (provider : String) (currencyRaw : String) (external_id : String) (statusRaw : String)
    (payload : Option String) (info : Option FieldMap) (created_atField : Option Nat)
    (id : Option String) : Except String TopUpRequest :=
  let _ := now
  match Currency.fromStr currencyRaw with
  | none => .error currencyValidationError
  | some c =>
    match TopUpStatus.fromStr statusRaw with
    | none => .error statusValidationError
    | some st =>
      .ok { id := id, user_id := user_id, amount := amount, provider := provider,
            currency := c, external_id := external_id, status := st,
            payload := payload, info := info,
            created_at := created_atField.getD moduleLoadTime }

/-! ### The Firestore store model

A collection's contents: an association list from document id to field map.
The batch primitives buffer writes and apply them only at `commit`, so a
batch that raises before `commit` leaves the store untouched. -/

/-- A document as returned by a query: its store-assigned id plus its data
(with the id mirrored into the `"id"` field by deserialization). -/
structure Doc where
  docId : String
  fields : FieldMap
deriving DecidableEq, Repr

/-- The contents of a collection. -/
abbrev Store := List (String × FieldMap)

/-- Look a document up by id. -/
def storeGet (store : Store) (docId : String) : Option FieldMap :=
  match store with
  | [] => none
  | (i, f) :: rest => if i = docId then some f else storeGet rest docId

/-- Merge `data` into the document map `m`, key by key
(`doc_ref.set(data, merge=True)` on an existing document). -/
def setMergeDoc (m : FieldMap) (data : FieldMap) : FieldMap :=
  data.foldl (fun acc kv => dictSet acc kv.1 kv.2) m

/-- `doc_ref.set(data, merge=True)`: merge into the document at `docId`,
creating it when absent. -/
def storeSetMerge (store : Store) (docId : String) (data : FieldMap) : Store :=
  match store with
  | [] => [(docId, data)]
  | (i, f) :: rest =>
    if i = docId then (i, setMergeDoc f data) :: rest
    else (i, f) :: storeSetMerge rest docId data

/-- Apply a buffered batch of merge-writes in order (`batch.commit()`). -/
def commitMerge (store : Store) (ops : List (String × FieldMap)) : Store :=
  ops.foldl (fun s op => storeSetMerge s op.1 op.2) store

/-- A query filter. `google.cloud.firestore` `FieldFilter`s are modelled by
the equality operator, the only shape the access layer's contract depends
on: a document matches when the named field holds the given value. -/
structure FieldFilter where
  field : String
  value : Value
deriving DecidableEq, Repr

def matchesFilter (f : FieldFilter) (d : Doc) : Bool :=
  dictGet d.fields f.field == some f.value

/-! ### The access layer (`firebase_service.py`)

Pure model of `FirebaseService`; the `db` handle is the explicit `Store`
argument. Exception messages are reproduced literally from the f-strings of
the source so that properties of their contents can be stated. -/

namespace FirebaseService

/-- Message of `add` / `add_with_doc_id` failures:
`f"Failed to add document to {collection}: {cause}"`. -/
def addErrMsg (collection cause : String) : String :=
  "Failed to add document to " ++ collection ++ ": " ++ cause

/-- Message of `delete` failures: `f"Failed to delete document: {cause}"`. -/
def deleteErrMsg (cause : String) : String :=
  "Failed to delete document: " ++ cause

/-- Message of `fetch_all` failures:
`f"Error fetching documents from {collection}: {cause}"`. -/
def fetchAllErrMsg (collection cause : String) : String :=
  "Error fetching documents from " ++ collection ++ ": " ++ cause

/-- Message of `fetch_by_id` failures:
`f"Error fetching document from {collection}: {cause}"`. -/
def fetchByIdErrMsg (collection cause : String) : String :=
  "Error fetching document from " ++ collection ++ ": " ++ cause

/-- Message of the `fetch_one` multiplicity failure:
`f"Expected one document, but found {n} in {collection}."`. -/
def fetchOneErrMsg (collection : String) (n : Nat) : String :=
  "Expected one document, but found " ++ toString n ++ " in " ++ collection ++ "."

/-- Message of `update` failures:
`f"Error updating document with ID {id}: {cause}"`. -/
def updateErrMsg (id cause : String) : String :=
  "Error updating document with ID " ++ id ++ ": " ++ cause

/-- Message of `add_to_subcollection` failures. -/
def addToSubcollectionErrMsg (subcollection parentCollection parentId cause : String) : String :=
  "Adding subcollection failure " ++ subcollection ++ " document "
    ++ parentCollection ++ "/" ++ parentId ++ ": " ++ cause

/-- Message of `batch_add` failures: `f"Batch add failed: {cause}"`. -/
def batchAddErrMsg (cause : String) : String :=
  "Batch add failed: " ++ cause

/-- Message of `batch_update` failures: `f"Batch update failed: {cause}"`. -/
def batchUpdateErrMsg (cause : String) : String :=
  "Batch update failed: " ++ cause

/-- Message raised inside the `batch_update` loop for a record without id. -/
def batchUpdateMissingIdMsg : String :=
  "Each object must have an ID for batch update."

/-- Message of `batch_delete` failures: `f"Batch delete failed: {cause}"`. -/
def batchDeleteErrMsg (cause : String) : String :=
  "Batch delete failed: " ++ cause

/-- `fetch_all(model_class, filters)` on a store that yields its documents
without transport failure: `if filters:` is Python truthiness, so an empty
(or absent) filter list streams the whole collection, and a non-empty list
is applied as a conjunction of chained `.where(...)` calls. -/
def fetch_all (store : List Doc) (filters : List FieldFilter) : List Doc :=
  if filters.isEmpty then store
  else store.filter (fun d => filters.all (fun f => matchesFilter f d))

/-- `fetch_one(model_class, filters)`:
zero matches return `None`; a unique match is returned; otherwise the
count-mismatch `FirebaseServiceException` is raised. -/
def fetch_one (collection : String) (store : List Doc) (filters : List FieldFilter) :
    Except String (Option Doc) :=
  let objects := fetch_all store filters
  if objects.isEmpty then .ok none
  else if objects.length ≠ 1 then .error (fetchOneErrMsg collection objects.length)
  else .ok objects.head?

/-- `update(id, obj)`: `data = obj.model_dump(exclude_unset=True)` is the
field map of explicitly-set fields (`objData` here); the merge-write updates
only those keys; then `data["id"] = id` and `data` is returned. -/
def update (store : Store) (id : String) (objData : FieldMap) : Store × FieldMap :=
  let data := objData
  let store' := storeSetMerge store id data
  (store', dictSet data "id" (Value.str id))

/-- An argument record of `batch_update`: its `id` attribute and the field
map `model_dump(exclude_unset=True)` produces for it. -/
structure BatchObj where
  id : Option String
  fields : FieldMap
deriving DecidableEq, Repr

/-- The `batch_update` loop: buffers one merge-write per record, raising at
the first record whose `id` is falsy; nothing reaches the store here. -/
def batch_update_build : List BatchObj → Except String (List (String × FieldMap))
  | [] => .ok []
  | o :: rest =>
    if pyFalsyOptStr o.id then .error batchUpdateMissingIdMsg
    else
      match batch_update_build rest with
      | .error e => .error e
      | .ok ops => .ok ((o.id.getD "", o.fields) :: ops)

/-- `batch_update(objs)`: build the batch, then `batch.commit()`. The raise
inside the loop is caught by the surrounding `except` and re-raised as
`f"Batch update failed: {e}"`; in that case `commit` never runs and the
store is returned unchanged. -/
def batch_update (store : Store) (objs : List BatchObj) : Store × Option String :=
  match batch_update_build objs with
  | .error e => (store, some (batchUpdateErrMsg e))
  | .ok ops => (commitMerge store ops, none)

end FirebaseService

/-! ### Helper lemmas on the string primitives -/

theorem listPrefixB_append (n b : List Char) : listPrefixB n (n ++ b) = true := by
  induction n with
  | nil => rfl
  | cons c cs ih => simp [listPrefixB, ih]

theorem listContainsB_nil_needle (hay : List Char) : listContainsB [] hay = true := by
  cases hay with
  | nil => rfl
  | cons c rest => simp [listContainsB, listPrefixB]

theorem listContainsB_append_middle (n b : List Char) :
    ∀ a : List Char, listContainsB n (a ++ (n ++ b)) = true := by
  intro a
  induction a with
  | nil =>
    cases n with
    | nil => exact listContainsB_nil_needle b
    | cons c cs =>
      have h := listPrefixB_append (c :: cs) b
      simp only [List.cons_append] at h
      simp [listContainsB, h]
  | cons x a' ih =>
    simp [listContainsB, ih]

/-- Containment is preserved by prepending text. -/
theorem listContainsB_append_left (n h0 h1 : List Char) (h : listContainsB n h1 = true) :
    listContainsB n (h0 ++ h1) = true := by
  induction h0 with
  | nil => simpa using h
  | cons c rest ih => simp [listContainsB, ih]

theorem listPrefixB_refl (n : List Char) : listPrefixB n n = true := by
  induction n with
  | nil => rfl
  | cons c cs ih => simp [listPrefixB, ih]

theorem listContainsB_self (n : List Char) : listContainsB n n = true := by
  cases n with
  | nil => rfl
  | cons c cs => simp [listContainsB, listPrefixB_refl]

theorem strdata_append (a b : String) : (a ++ b).data = a.data ++ b.data := rfl

/-- A string built as `pre ++ needle ++ post` contains `needle`. -/
theorem strContainsB_of_middle (pre needle post : String) :
    strContainsB (pre ++ needle ++ post) needle = true := by
  unfold strContainsB
  rw [strdata_append, strdata_append, List.append_assoc]
  exact listContainsB_append_middle needle.data post.data pre.data

/-! ### C4: enumerated tag sets -/

/-- C4 (counterexample): the claim states the gift-type tags as
`{EXTERNAL_ASSET, BALANCE}` and the case-opening tags as
`{NEW, REDEEMED, INVENTORY}`, but the source accepts `"PORTALS_GIFT"`
(outside the claimed set) and rejects `"EXTERNAL_ASSET"` and `"REDEEMED"`
(inside the claimed sets). -/
theorem enum_tag_sets_counterexample :
    GiftType.fromStr "PORTALS_GIFT" = some GiftType.PORTALS_GIFT
    ∧ GiftType.fromStr "EXTERNAL_ASSET" = none
    ∧ ("PORTALS_GIFT" : String) ≠ "EXTERNAL_ASSET"
    ∧ ("PORTALS_GIFT" : String) ≠ "BALANCE"
    ∧ CaseOpeningStatus.fromStr "REDEPED" = some CaseOpeningStatus.REDEPED
    ∧ CaseOpeningStatus.fromStr "REDEEMED" = none := by
  refine ⟨rfl, rfl, by decide, by decide, rfl, rfl⟩

/-- C4 (amended): each enumerated field accepts exactly the closed tag set of
the source: currency `{TON, COIN, XTR}`, top-up status
`{PENDING, PROCESSING, SUCCESS, FAILED}`, gift type `{PORTALS_GIFT, BALANCE}`,
case-opening status `{NEW, REDEPED, INVENTORY}`; any other tag fails
validation. -/
theorem enum_tag_sets (s : String) :
    ((Currency.fromStr s).isSome ↔ (s = "TON" ∨ s = "COIN" ∨ s = "XTR"))
    ∧ ((TopUpStatus.fromStr s).isSome ↔
        (s = "PENDING" ∨ s = "PROCESSING" ∨ s = "SUCCESS" ∨ s = "FAILED"))
    ∧ ((GiftType.fromStr s).isSome ↔ (s = "PORTALS_GIFT" ∨ s = "BALANCE"))
    ∧ ((CaseOpeningStatus.fromStr s).isSome ↔
        (s = "NEW" ∨ s = "REDEPED" ∨ s = "INVENTORY")) := by
  refine ⟨?_, ?_, ?_, ?_⟩
  · unfold Currency.fromStr
    split_ifs <;> simp_all
  · unfold TopUpStatus.fromStr
    split_ifs <;> simp_all
  · unfold GiftType.fromStr
    split_ifs <;> simp_all
  · unfold CaseOpeningStatus.fromStr
    split_ifs <;> simp_all

/-! ### C6: legacy `"Currency."`-prefixed deserialization -/

/-- `_normalize_currency` strips the legacy prefix from any member tag. -/
theorem normalizeCurrency_legacy_tag (c : Currency) :
    normalizeCurrency ("Currency." ++ c.tag) = c.tag := by
  cases c <;> decide

/-- A bare member tag has no `"Currency."` prefix, so it is left unchanged. -/
theorem normalizeCurrency_tag (c : Currency) : normalizeCurrency c.tag = c.tag := by
  cases c <;> decide

theorem currency_fromStr_tag (c : Currency) : Currency.fromStr c.tag = some c := by
  cases c <;> decide

/-- Without normalization, the legacy-prefixed form fails enum validation. -/
theorem currency_fromStr_legacy_none (c : Currency) :
    Currency.fromStr ("Currency." ++ c.tag) = none := by
  cases c <;> decide

/-- C6 (counterexample): `TopUpRequest` declares no `_normalize_currency`
validator, so constructing it from the legacy-prefixed `"Currency.COIN"`
fails validation while the bare `"COIN"` succeeds — the two field mappings do
not yield the same record. -/
theorem topup_legacy_currency_counterexample :
    TopUpRequest.ofFields 0 0 "u" 1 "prov" "Currency.COIN" "ext" "PENDING"
        none none none none = .error currencyValidationError
    ∧ TopUpRequest.ofFields 0 0 "u" 1 "prov" "COIN" "ext" "PENDING" none none none none =
        .ok { id := none, user_id := "u", amount := 1, provider := "prov",
              currency := Currency.COIN, external_id := "ext",
              status := TopUpStatus.PENDING, payload := none, info := none,
              created_at := 0 } := by
  exact ⟨rfl, rfl⟩

/-- C6 (amended): `Wallet` and `Transaction` construction treats the
legacy-prefixed string `"Currency.X"` exactly like the bare tag `"X"`;
`TopUpRequest`, which lacks the normalizing validator, instead fails
validation on every legacy-prefixed currency value. -/
theorem currency_legacy_prefix (c : Currency) (u fw tw prov ext stRaw desc : String)
    (b amt : Int) (lu ts ca : Option Nat) (i : Option String) (lt now : Nat)
    (pl : Option String) (info : Option FieldMap) :
    Wallet.ofFields u b ("Currency." ++ c.tag) lu i = Wallet.ofFields u b c.tag lu i
    ∧ Transaction.ofFields lt now fw tw amt ("Currency." ++ c.tag) ts desc i
        = Transaction.ofFields lt now fw tw amt c.tag ts desc i
    ∧ TopUpRequest.ofFields lt now u amt prov ("Currency." ++ c.tag) ext stRaw pl info ca i
        = .error currencyValidationError := by
  refine ⟨?_, ?_, ?_⟩
  · unfold Wallet.ofFields
    rw [normalizeCurrency_legacy_tag, normalizeCurrency_tag]
  · unfold Transaction.ofFields
    rw [normalizeCurrency_legacy_tag, normalizeCurrency_tag]
  · unfold TopUpRequest.ofFields
    rw [currency_fromStr_legacy_none]

/-! ### C10: defaults evaluated at module load -/

/-- C10: the defaults of `Transaction.timestamp` and `TopUpRequest.created_at`
are the single instant at which `wallet.py` was imported (`lt`), not the
construction-time clock: two constructions at different times `now1`, `now2`
without the field yield identical records, and the resulting field value is
the module-load instant. -/
theorem default_timestamp_module_load (lt now1 now2 : Nat)
    (fw tw u prov ext stRaw cRaw desc : String) (amt : Int) (pl : Option String)
    (info : Option FieldMap) (i : Option String) :
    Transaction.ofFields lt now1 fw tw amt cRaw none desc i
      = Transaction.ofFields lt now2 fw tw amt cRaw none desc i
    ∧ (∀ t : Transaction,
        Transaction.ofFields lt now1 fw tw amt cRaw none desc i = .ok t →
        t.timestamp = lt)
    ∧ TopUpRequest.ofFields lt now1 u amt prov cRaw ext stRaw pl info none i
      = TopUpRequest.ofFields lt now2 u amt prov cRaw ext stRaw pl info none i
    ∧ (∀ r : TopUpRequest,
        TopUpRequest.ofFields lt now1 u amt prov cRaw ext stRaw pl info none i = .ok r →
        r.created_at = lt) := by
  refine ⟨rfl, ?_, rfl, ?_⟩
  · intro t h
    unfold Transaction.ofFields at h
    split at h
    · simp at h
    · simp only [Except.ok.injEq] at h
      subst h
      rfl
  · intro r h
    unfold TopUpRequest.ofFields at h
    split at h
    · simp at h
    · split at h
      · simp at h
      · simp only [Except.ok.injEq] at h
        subst h
        rfl

/-- C10 (witness): concrete instantiation — load instant `5`, constructions at
clock `1` and `99` agree, and the defaulted timestamp is `5`. -/
theorem default_timestamp_module_load_witness :
    Transaction.ofFields 5 1 "f" "t" 10 "TON" none "d" none
      = Transaction.ofFields 5 99 "f" "t" 10 "TON" none "d" none
    ∧ ({ id := none, from_wallet_id := "f", to_wallet_id := "t", amount := 10,
         currency := Currency.TON, timestamp := 5, description := "d" } :
         Transaction).timestamp = 5 := by
  have h := default_timestamp_module_load 5 1 99 "f" "t" "u" "p" "e" "PENDING" "TON" "d"
    10 none none none
  exact ⟨h.1, h.2.1 _ rfl⟩

/-! ### C8: derived float accessors -/

/-- C8: each derived accessor is a pure function of its stored source field:
it is `0` when the source integer is `0` (or, for `pricef`, when the price is
absent or unparsable) and exactly `source / 100` otherwise (for `pricef`,
exactly the parsed price). -/
theorem derived_float_accessors (c : Case) (g : Gift) (co : CaseOpening) (p : PortalsNFT) :
    (c.cost = 0 → c.costf = 0)
    ∧ (c.cost ≠ 0 → c.costf = (c.cost : Rat) / 100)
    ∧ (g.volume = 0 → g.volumef = 0)
    ∧ (g.volume ≠ 0 → g.volumef = (g.volume : Rat) / 100)
    ∧ (g.prob = 0 → g.probf = 0)
    ∧ (g.prob ≠ 0 → g.probf = (g.prob : Rat) / 100)
    ∧ (co.gift_volume = 0 → co.gift_volumef = 0)
    ∧ (co.gift_volume ≠ 0 → co.gift_volumef = (co.gift_volume : Rat) / 100)
    ∧ (p.price = none → p.pricef = 0)
    ∧ (∀ s, p.price = some s → pyFloat s = none → p.pricef = 0)
    ∧ (∀ s q, p.price = some s → pyFloat s = some q → p.pricef = q) := by
  refine ⟨fun h => ?_, fun h => ?_, fun h => ?_, fun h => ?_, fun h => ?_, fun h => ?_,
    fun h => ?_, fun h => ?_, fun h => ?_, fun s h hb => ?_, fun s q h hq => ?_⟩
  · simp [Case.costf, h]
  · simp [Case.costf, h]
  · simp [Gift.volumef, h]
  · simp [Gift.volumef, h]
  · simp [Gift.probf, h]
  · simp [Gift.probf, h]
  · simp [CaseOpening.gift_volumef, h]
  · simp [CaseOpening.gift_volumef, h]
  · simp [PortalsNFT.pricef, h]
  · simp [PortalsNFT.pricef, h, hb]
  · simp [PortalsNFT.pricef, h, hq]

/-- Sample records shared by the concrete witnesses. -/
def sampleNFT : PortalsNFT :=
  { id := "n1", tg_id := "tg", collection_id := "col", external_collection_number := 7,
    name := "cap", photo_url := "http", price := some "12.50" }

def sampleNFTBadPrice : PortalsNFT := { sampleNFT with price := some "twelve" }

def sampleNFTNoPrice : PortalsNFT := { sampleNFT with price := none }

def sampleReward : TONReward := { id := "r1", name := "ton", volume := 500, photo_url := "h" }

def sampleGift : Gift :=
  { id := some "g1", case_id := "c1", name := "gift", prob := 10, volume := 3,
    is_active := true, type := GiftType.PORTALS_GIFT }

def sampleCaseZero : Case := { name := "c", cost := 0, image_url := "u", is_active := true }

def sampleCase250 : Case := { name := "c", cost := 250, image_url := "u", is_active := true }

def sampleOpening : CaseOpening :=
  { user_id := "u", case_id := "c", gift_id := "g", gift_type := GiftType.BALANCE,
    gift_volume := 70, status := CaseOpeningStatus.NEW, open_at := 0 }

/-- The sample price string parses to exactly `25/2`. -/
theorem pyFloat_sample_price : pyFloat "12.50" = some ((25 : Rat) / 2) := by
  rw [pyFloat, show pyFloatParts "12.50" = some (false, 1250, 2) from by decide]
  show some (ratOfParts (false, 1250, 2)) = some ((25 : Rat) / 2)
  rw [show ratOfParts (false, 1250, 2) = (1250 : Rat) / 10 ^ 2 from rfl]
  norm_num

/-- The sample non-numeric price string fails to parse. -/
theorem pyFloat_sample_bad : pyFloat "twelve" = none := by
  rw [pyFloat, show pyFloatParts "twelve" = none from by decide]
  rfl

/-- C8 (witness): concrete accessor evaluations. -/
theorem derived_float_accessors_witness :
    sampleCaseZero.costf = 0
    ∧ sampleCase250.costf = (sampleCase250.cost : Rat) / 100
    ∧ (sampleCase250.cost : Rat) / 100 = 5 / 2
    ∧ sampleOpening.gift_volumef = (sampleOpening.gift_volume : Rat) / 100
    ∧ sampleNFTNoPrice.pricef = 0
    ∧ sampleNFTBadPrice.pricef = 0
    ∧ sampleNFT.pricef = (25 : Rat) / 2 := by
  have h0 := derived_float_accessors sampleCaseZero sampleGift sampleOpening sampleNFTNoPrice
  have h1 := derived_float_accessors sampleCase250 sampleGift sampleOpening sampleNFTBadPrice
  have h2 := derived_float_accessors sampleCaseZero sampleGift sampleOpening sampleNFT
  refine ⟨h0.1 (by decide), h1.2.1 (by decide), ?_, ?_, ?_, ?_, ?_⟩
  · show ((250 : Int) : Rat) / 100 = 5 / 2
    norm_num
  · exact h0.2.2.2.2.2.2.2.1 (by decide)
  · exact h0.2.2.2.2.2.2.2.2.1 rfl
  · exact h1.2.2.2.2.2.2.2.2.2.1 "twelve" rfl pyFloat_sample_bad
  · exact h2.2.2.2.2.2.2.2.2.2.2 "12.50" ((25 : Rat) / 2) rfl pyFloat_sample_price

/-! ### C3: `Gift.update_payload` recomputes the stored volume -/

/-- C3: with a `PortalsNFT` payload whose price parses to `q`, the gift's
volume becomes `int(q * 100)` and the payload is stored; with a `TONReward`
payload the volume becomes the reward's volume and the payload is stored;
with a value of neither variant the call raises the invalid-argument
`ValueError` and changes nothing. -/
theorem update_payload_contract (g : Gift) (p : PortalsNFT) (r : TONReward) :
    (∀ q, floatOfPrice p.price = .ok q →
      Gift.update_payload g (.portals p) =
        ({ g with volume := intOfRatTrunc (q * 100), payload := some (.portals p) }, none))
    ∧ Gift.update_payload g (.ton r) =
        ({ g with volume := r.volume, payload := some (.ton r) }, none)
    ∧ Gift.update_payload g .other =
        (g, some (.valueError "Payload must be an instance of PortalsNFT or TONReward.")) := by
  refine ⟨fun q hq => ?_, rfl, rfl⟩
  simp [Gift.update_payload, hq]

/-- `intOfRatTrunc ((25/2) * 100) = 1250`: the sample price scales to the
claimed volume. -/
theorem intOfRatTrunc_sample : intOfRatTrunc ((25 : Rat) / 2 * 100) = 1250 := by
  rw [show (25 : Rat) / 2 * 100 = (1250 : Rat) by norm_num]
  rfl

/-- C3 (witness): price `"12.50"` yields volume `1250`; reward volume `500`
is copied; the neither-variant call raises. -/
theorem update_payload_contract_witness :
    floatOfPrice sampleNFT.price = .ok ((25 : Rat) / 2)
    ∧ Gift.update_payload sampleGift (.portals sampleNFT) =
        ({ sampleGift with
            volume := intOfRatTrunc ((25 : Rat) / 2 * 100),
            payload := some (.portals sampleNFT) }, none)
    ∧ intOfRatTrunc ((25 : Rat) / 2 * 100) = 1250
    ∧ Gift.update_payload sampleGift (.ton sampleReward) =
        ({ sampleGift with
            volume := sampleReward.volume,
            payload := some (.ton sampleReward) }, none)
    ∧ Gift.update_payload sampleGift .other =
        (sampleGift,
         some (.valueError "Payload must be an instance of PortalsNFT or TONReward.")) := by
  have hp : floatOfPrice sampleNFT.price = .ok ((25 : Rat) / 2) := by
    rw [show sampleNFT.price = some "12.50" from rfl, floatOfPrice, pyFloat_sample_price]
  have h := update_payload_contract sampleGift sampleNFT sampleReward
  exact ⟨hp, h.1 _ hp, intOfRatTrunc_sample, h.2.1, h.2.2⟩

/-! ### C9: `update_payload` failure modes leave the gift unchanged -/

/-- C9: a `PortalsNFT` payload with an absent price raises `TypeError`, one
with an unparsable price raises `ValueError` (no lenient `0.0` fallback), a
neither-variant payload raises `ValueError`, and in every failing case the
returned gift state is exactly the input gift (volume and payload
untouched). -/
theorem update_payload_failure (g : Gift) (p : PortalsNFT) :
    (p.price = none → Gift.update_payload g (.portals p) =
      (g, some (.typeError
        "float() argument must be a string or a real number, not NoneType")))
    ∧ (∀ s, p.price = some s → pyFloat s = none →
        Gift.update_payload g (.portals p) =
          (g, some (.valueError ("could not convert string to float: " ++ s))))
    ∧ Gift.update_payload g .other =
        (g, some (.valueError "Payload must be an instance of PortalsNFT or TONReward.")) := by
  refine ⟨fun h => ?_, fun s hs hbad => ?_, rfl⟩
  · simp [Gift.update_payload, floatOfPrice, h]
  · simp [Gift.update_payload, floatOfPrice, hs, hbad]

/-- C9 (witness): a missing price and the unparsable price `"twelve"` both
raise and leave the sample gift unchanged. -/
theorem update_payload_failure_witness :
    Gift.update_payload sampleGift (.portals sampleNFTNoPrice) =
      (sampleGift, some (.typeError
        "float() argument must be a string or a real number, not NoneType"))
    ∧ Gift.update_payload sampleGift (.portals sampleNFTBadPrice) =
      (sampleGift, some (.valueError ("could not convert string to float: " ++ "twelve"))) := by
  have h0 := update_payload_failure sampleGift sampleNFTNoPrice
  have h1 := update_payload_failure sampleGift sampleNFTBadPrice
  exact ⟨h0.1 rfl, h1.2.1 "twelve" rfl pyFloat_sample_bad⟩

/-- A string that syntactically ends in `needle` contains it. -/
theorem strContainsB_of_suffix (pre needle : String) :
    strContainsB (pre ++ needle) needle = true := by
  unfold strContainsB
  rw [strdata_append]
  exact listContainsB_append_left _ _ _ (listContainsB_self _)

/-! ### C1: `fetch_one` multiplicity contract -/

/-- The `fetch_one` count-mismatch message always reports the actual count. -/
theorem fetchOneErrMsg_contains_count (coll : String) (n : Nat) :
    strContainsB (FirebaseService.fetchOneErrMsg coll n) (toString n) = true := by
  unfold FirebaseService.fetchOneErrMsg strContainsB
  simp only [strdata_append, List.append_assoc]
  exact listContainsB_append_middle _ _ _

/-- C1: on a store reachable without transport failure, `fetch_one` returns
the absence value when the filters match no document, the unique matching
document when they match exactly one, and otherwise fails with the
store-operation error reporting the actual match count — never silently
picking one of several matches. -/
theorem fetch_one_contract (coll : String) (store : List Doc) (filters : List FieldFilter) :
    (FirebaseService.fetch_all store filters = [] →
      FirebaseService.fetch_one coll store filters = .ok none)
    ∧ (∀ d, FirebaseService.fetch_all store filters = [d] →
      FirebaseService.fetch_one coll store filters = .ok (some d))
    ∧ (2 ≤ (FirebaseService.fetch_all store filters).length →
      FirebaseService.fetch_one coll store filters =
        .error (FirebaseService.fetchOneErrMsg coll
          (FirebaseService.fetch_all store filters).length)
      ∧ strContainsB
          (FirebaseService.fetchOneErrMsg coll
            (FirebaseService.fetch_all store filters).length)
          (toString (FirebaseService.fetch_all store filters).length) = true) := by
  refine ⟨fun h => ?_, fun d h => ?_, fun h => ⟨?_, fetchOneErrMsg_contains_count _ _⟩⟩
  · simp [FirebaseService.fetch_one, h]
  · simp [FirebaseService.fetch_one, h]
  · rcases hl : FirebaseService.fetch_all store filters with _ | ⟨a, t⟩
    · rw [hl] at h
      simp at h
    · rcases t with _ | ⟨b, rest⟩
      · rw [hl] at h
        simp at h
      · have hne : (a :: b :: rest).length ≠ 1 := by simp
        simp [FirebaseService.fetch_one, hl, hne]

/-- Sample documents and filter shared by the store-level witnesses. -/
def sampleDocA : Doc := ⟨"a", [("u", Value.str "x")]⟩

def sampleDocB : Doc := ⟨"b", [("u", Value.str "x")]⟩

def sampleDocC : Doc := ⟨"c", [("u", Value.str "y")]⟩

def sampleFilterU : List FieldFilter := [⟨"u", Value.str "x"⟩]

/-- C1 (witness): zero matches give absence, one match is returned, two
matches raise the count-reporting error. -/
theorem fetch_one_contract_witness :
    FirebaseService.fetch_one "gifts" [sampleDocC] sampleFilterU = .ok none
    ∧ FirebaseService.fetch_one "gifts" [sampleDocA, sampleDocC] sampleFilterU =
        .ok (some sampleDocA)
    ∧ FirebaseService.fetch_one "gifts" [sampleDocA, sampleDocB, sampleDocC] sampleFilterU =
        .error (FirebaseService.fetchOneErrMsg "gifts" 2)
    ∧ strContainsB (FirebaseService.fetchOneErrMsg "gifts" 2) (toString 2) = true := by
  refine ⟨(fetch_one_contract "gifts" [sampleDocC] sampleFilterU).1 (by decide),
    (fetch_one_contract "gifts" [sampleDocA, sampleDocC] sampleFilterU).2.1 _ (by decide),
    ?_, ?_⟩
  · have h := (fetch_one_contract "gifts" [sampleDocA, sampleDocB, sampleDocC]
      sampleFilterU).2.2 (by decide)
    rw [show (FirebaseService.fetch_all [sampleDocA, sampleDocB, sampleDocC]
      sampleFilterU).length = 2 from by decide] at h
    exact h.1
  · have h := (fetch_one_contract "gifts" [sampleDocA, sampleDocB, sampleDocC]
      sampleFilterU).2.2 (by decide)
    rw [show (FirebaseService.fetch_all [sampleDocA, sampleDocB, sampleDocC]
      sampleFilterU).length = 2 from by decide] at h
    exact h.2

/-! ### C5: error-message contents -/

/-- C5 (counterexample): the `delete` failure message contains the cause but
not the collection name (here `Wallet`'s `"wallets"`), and the `batch_update`
failure message contains no collection name either (`Gift`'s `"gifts"`) —
refuting the claim that every store-operation error message includes the
collection name. -/
theorem store_error_messages_counterexample :
    FirebaseService.deleteErrMsg "boom" = "Failed to delete document: boom"
    ∧ Wallet.collection_name = "wallets"
    ∧ strContainsB (FirebaseService.deleteErrMsg "boom") Wallet.collection_name = false
    ∧ Gift.collection_name = "gifts"
    ∧ strContainsB
        (FirebaseService.batchUpdateErrMsg FirebaseService.batchUpdateMissingIdMsg)
        Gift.collection_name = false := by
  refine ⟨rfl, rfl, by decide, rfl, by decide⟩

/-- C5 (amended): the failure messages of `add`, `add_with_doc_id`,
`fetch_all`, `fetch_by_id`, `fetch_one` and `add_to_subcollection` contain
the collection name(s) and the underlying cause (for `fetch_one`, the match
count); the messages of `delete`, `update` and the three batch variants
contain the underlying cause (and, for `update`, the document id) but not,
in general, the collection name. -/
theorem store_error_messages (coll cause docid sub parent pid : String) (n : Nat) :
    (strContainsB (FirebaseService.addErrMsg coll cause) coll = true
      ∧ strContainsB (FirebaseService.addErrMsg coll cause) cause = true)
    ∧ (strContainsB (FirebaseService.fetchAllErrMsg coll cause) coll = true
      ∧ strContainsB (FirebaseService.fetchAllErrMsg coll cause) cause = true)
    ∧ (strContainsB (FirebaseService.fetchByIdErrMsg coll cause) coll = true
      ∧ strContainsB (FirebaseService.fetchByIdErrMsg coll cause) cause = true)
    ∧ (strContainsB (FirebaseService.fetchOneErrMsg coll n) coll = true
      ∧ strContainsB (FirebaseService.fetchOneErrMsg coll n) (toString n) = true)
    ∧ (strContainsB (FirebaseService.addToSubcollectionErrMsg sub parent pid cause) sub = true
      ∧ strContainsB (FirebaseService.addToSubcollectionErrMsg sub parent pid cause)
          parent = true
      ∧ strContainsB (FirebaseService.addToSubcollectionErrMsg sub parent pid cause)
          cause = true)
    ∧ strContainsB (FirebaseService.deleteErrMsg cause) cause = true
    ∧ (strContainsB (FirebaseService.updateErrMsg docid cause) docid = true
      ∧ strContainsB (FirebaseService.updateErrMsg docid cause) cause = true)
    ∧ strContainsB (FirebaseService.batchAddErrMsg cause) cause = true
    ∧ strContainsB (FirebaseService.batchUpdateErrMsg cause) cause = true
    ∧ strContainsB (FirebaseService.batchDeleteErrMsg cause) cause = true := by
  refine ⟨⟨?_, ?_⟩, ⟨?_, ?_⟩, ⟨?_, ?_⟩, ⟨?_, fetchOneErrMsg_contains_count _ _⟩,
    ⟨?_, ?_, ?_⟩, ?_, ⟨?_, ?_⟩, ?_, ?_, ?_⟩
  · unfold FirebaseService.addErrMsg strContainsB
    simp only [strdata_append, List.append_assoc]
    exact listContainsB_append_middle _ _ _
  · exact strContainsB_of_suffix _ _
  · unfold FirebaseService.fetchAllErrMsg strContainsB
    simp only [strdata_append, List.append_assoc]
    exact listContainsB_append_middle _ _ _
  · exact strContainsB_of_suffix _ _
  · unfold FirebaseService.fetchByIdErrMsg strContainsB
    simp only [strdata_append, List.append_assoc]
    exact listContainsB_append_middle _ _ _
  · exact strContainsB_of_suffix _ _
  · unfold FirebaseService.fetchOneErrMsg strContainsB
    simp only [strdata_append, List.append_assoc]
    apply listContainsB_append_left
    apply listContainsB_append_left
    apply listContainsB_append_left
    exact listContainsB_append_middle _ _ []
  · unfold FirebaseService.addToSubcollectionErrMsg strContainsB
    simp only [strdata_append, List.append_assoc]
    exact listContainsB_append_middle _ _ _
  · unfold FirebaseService.addToSubcollectionErrMsg strContainsB
    simp only [strdata_append, List.append_assoc]
    apply listContainsB_append_left
    apply listContainsB_append_left
    apply listContainsB_append_left
    exact listContainsB_append_middle _ _ []
  · exact strContainsB_of_suffix _ _
  · exact strContainsB_of_suffix _ _
  · unfold FirebaseService.updateErrMsg strContainsB
    simp only [strdata_append, List.append_assoc]
    exact listContainsB_append_middle _ _ _
  · exact strContainsB_of_suffix _ _
  · exact strContainsB_of_suffix _ _
  · exact strContainsB_of_suffix _ _
  · exact strContainsB_of_suffix _ _

/-! ### C2: `batch_update` id precondition and atomicity -/

/-- If some record lacks an id, building the batch raises the missing-id
error (at the first such record), so nothing can reach `commit`. -/
theorem batch_update_build_error (objs : List FirebaseService.BatchObj)
    (h : ∃ o ∈ objs, pyFalsyOptStr o.id = true) :
    FirebaseService.batch_update_build objs = .error FirebaseService.batchUpdateMissingIdMsg := by
  induction objs with
  | nil => simp at h
  | cons o rest ih =>
    by_cases ho : pyFalsyOptStr o.id = true
    · simp [FirebaseService.batch_update_build, ho]
    · have hrest : ∃ o ∈ rest, pyFalsyOptStr o.id = true := by
        rcases h with ⟨o', ho', hfal⟩
        rcases List.mem_cons.mp ho' with rfl | hmem
        · exact absurd hfal ho
        · exact ⟨o', hmem, hfal⟩
      simp [FirebaseService.batch_update_build, ho, ih hrest]

/-- If every record carries an id, the batch buffers one merge-write per
record, in order. -/
theorem batch_update_build_ok (objs : List FirebaseService.BatchObj)
    (h : ∀ o ∈ objs, pyFalsyOptStr o.id = false) :
    FirebaseService.batch_update_build objs =
      .ok (objs.map fun o => (o.id.getD "", o.fields)) := by
  induction objs with
  | nil => rfl
  | cons o rest ih =>
    have ho : pyFalsyOptStr o.id = false := h o (List.mem_cons_self o rest)
    have hrest := ih fun o' hm => h o' (List.mem_cons_of_mem o hm)
    simp [FirebaseService.batch_update_build, ho, hrest]

/-- C2: if at least one record lacks an identifier, `batch_update` fails with
the store-operation error and the store is returned unchanged (the batch is
never committed); if every record carries one, the explicitly-set fields of
each record are merge-written in a single committed batch. -/
theorem batch_update_contract (store : Store) (objs : List FirebaseService.BatchObj) :
    ((∃ o ∈ objs, pyFalsyOptStr o.id = true) →
      FirebaseService.batch_update store objs =
        (store, some (FirebaseService.batchUpdateErrMsg
          FirebaseService.batchUpdateMissingIdMsg)))
    ∧ ((∀ o ∈ objs, pyFalsyOptStr o.id = false) →
      FirebaseService.batch_update store objs =
        (commitMerge store (objs.map fun o => (o.id.getD "", o.fields)), none)) := by
  constructor
  · intro h
    rw [FirebaseService.batch_update, batch_update_build_error objs h]
  · intro h
    rw [FirebaseService.batch_update, batch_update_build_ok objs h]

/-- C2 (witness): a batch containing an id-less record leaves the concrete
store untouched and raises; the same batch with ids merges both writes. -/
theorem batch_update_contract_witness :
    FirebaseService.batch_update [("d1", [("f", Value.int 1)])]
        [⟨some "d1", [("g", Value.int 2)]⟩, ⟨none, [("h", Value.int 3)]⟩] =
      ([("d1", [("f", Value.int 1)])],
        some (FirebaseService.batchUpdateErrMsg FirebaseService.batchUpdateMissingIdMsg))
    ∧ FirebaseService.batch_update [("d1", [("f", Value.int 1)])]
        [⟨some "d1", [("g", Value.int 2)]⟩, ⟨some "d2", [("h", Value.int 3)]⟩] =
      (commitMerge [("d1", [("f", Value.int 1)])]
        ([⟨some "d1", [("g", Value.int 2)]⟩,
          (⟨some "d2", [("h", Value.int 3)]⟩ : FirebaseService.BatchObj)].map
            fun o => (o.id.getD "", o.fields)), none)
    ∧ commitMerge [("d1", [("f", Value.int 1)])]
        ([⟨some "d1", [("g", Value.int 2)]⟩,
          (⟨some "d2", [("h", Value.int 3)]⟩ : FirebaseService.BatchObj)].map
            fun o => (o.id.getD "", o.fields)) =
      [("d1", [("f", Value.int 1), ("g", Value.int 2)]), ("d2", [("h", Value.int 3)])] := by
  refine ⟨(batch_update_contract _ _).1 ?_, (batch_update_contract _ _).2 ?_, by decide⟩
  · exact ⟨⟨none, [("h", Value.int 3)]⟩, by decide, rfl⟩
  · intro o hm
    rcases List.mem_cons.mp hm with rfl | hm2
    · rfl
    · rcases List.mem_cons.mp hm2 with rfl | hm3
      · rfl
      · simp at hm3

/-! ### C7: `update` merges only the explicitly-set fields -/

theorem dictGet_dictSet_self (m : FieldMap) (k : String) (v : Value) :
    dictGet (dictSet m k v) k = some v := by
  induction m with
  | nil => simp [dictSet, dictGet]
  | cons kv rest ih =>
    obtain ⟨k0, v0⟩ := kv
    by_cases h : k0 = k <;> simp [dictSet, dictGet, h, ih]

theorem dictGet_dictSet_ne (m : FieldMap) (k : String) (v : Value) (j : String)
    (h : j ≠ k) : dictGet (dictSet m k v) j = dictGet m j := by
  induction m with
  | nil => simp [dictSet, dictGet, Ne.symm h]
  | cons kv rest ih =>
    obtain ⟨k0, v0⟩ := kv
    by_cases h0 : k0 = k
    · subst h0
      simp [dictSet, dictGet, Ne.symm h]
    · simp only [dictSet, if_neg h0]
      by_cases hj : k0 = j <;> simp [dictGet, hj, ih]

theorem dictGet_none_of_not_mem_keys (m : FieldMap) (k : String)
    (h : k ∉ m.map Prod.fst) : dictGet m k = none := by
  induction m with
  | nil => rfl
  | cons kv rest ih =>
    obtain ⟨k0, v0⟩ := kv
    simp only [List.map_cons, List.mem_cons] at h
    push_neg at h
    simp [dictGet, Ne.symm h.1, ih h.2]

/-- `setMergeDoc` does not touch keys absent from the written data. -/
theorem dictGet_setMergeDoc_not_written (data : FieldMap) :
    ∀ (m : FieldMap) (k : String), dictGet data k = none →
      dictGet (setMergeDoc m data) k = dictGet m k := by
  induction data with
  | nil => intro m k _; rfl
  | cons kv rest ih =>
    intro m k h
    obtain ⟨k0, v0⟩ := kv
    have hk0 : k0 ≠ k := by
      intro he
      simp [dictGet, he] at h
    have hrest : dictGet rest k = none := by
      simpa [dictGet, hk0] using h
    show dictGet (setMergeDoc (dictSet m k0 v0) rest) k = dictGet m k
    rw [ih _ _ hrest, dictGet_dictSet_ne _ _ _ _ (fun he => hk0 he.symm)]

/-- `setMergeDoc` writes every bound key of duplicate-free data. -/
theorem dictGet_setMergeDoc_written (data : FieldMap) :
    ∀ (m : FieldMap) (k : String) (v : Value), dictGet data k = some v →
      (data.map Prod.fst).Nodup →
      dictGet (setMergeDoc m data) k = some v := by
  induction data with
  | nil => intro m k v h _; simp [dictGet] at h
  | cons kv rest ih =>
    intro m k v h hnd
    obtain ⟨k0, v0⟩ := kv
    simp only [List.map_cons, List.nodup_cons] at hnd
    by_cases he : k0 = k
    · subst he
      have hv : v0 = v := by simpa [dictGet] using h
      subst hv
      have hrest : dictGet rest k0 = none :=
        dictGet_none_of_not_mem_keys rest k0 hnd.1
      show dictGet (setMergeDoc (dictSet m k0 v0) rest) k0 = some v0
      rw [dictGet_setMergeDoc_not_written rest _ _ hrest, dictGet_dictSet_self]
    · have hrest : dictGet rest k = some v := by simpa [dictGet, he] using h
      exact ih _ _ _ hrest hnd.2

theorem storeGet_storeSetMerge_self (store : Store) (docId : String) (data doc : FieldMap)
    (h : storeGet store docId = some doc) :
    storeGet (storeSetMerge store docId data) docId = some (setMergeDoc doc data) := by
  induction store with
  | nil => simp [storeGet] at h
  | cons entry rest ih =>
    obtain ⟨i, f⟩ := entry
    by_cases hi : i = docId
    · subst hi
      have hf : f = doc := by simpa [storeGet] using h
      subst hf
      simp [storeSetMerge, storeGet]
    · have hrest : storeGet rest docId = some doc := by simpa [storeGet, hi] using h
      simp [storeSetMerge, storeGet, hi, ih hrest]

theorem storeGet_storeSetMerge_ne (store : Store) (docId : String) (data : FieldMap)
    (j : String) (h : j ≠ docId) :
    storeGet (storeSetMerge store docId data) j = storeGet store j := by
  induction store with
  | nil => simp [storeSetMerge, storeGet, Ne.symm h]
  | cons entry rest ih =>
    obtain ⟨i, f⟩ := entry
    by_cases hi : i = docId
    · subst hi
      simp [storeSetMerge, storeGet, Ne.symm h]
    · by_cases hj : i = j <;> simp [storeSetMerge, storeGet, hi, hj, h, ih]

/-- C7: `update(id, record)` merge-writes exactly the explicitly-set fields:
written keys take their new values, every other field of the stored document
is left unchanged, other documents are untouched, and the returned field
mapping is the written data with the identifier attached. -/
theorem update_contract (store : Store) (docId : String) (data doc : FieldMap)
    (hdoc : storeGet store docId = some doc)
    (hnodup : (data.map Prod.fst).Nodup) :
    storeGet (FirebaseService.update store docId data).1 docId =
      some (setMergeDoc doc data)
    ∧ (∀ k v, dictGet data k = some v → dictGet (setMergeDoc doc data) k = some v)
    ∧ (∀ k, dictGet data k = none → dictGet (setMergeDoc doc data) k = dictGet doc k)
    ∧ (∀ j, j ≠ docId →
        storeGet (FirebaseService.update store docId data).1 j = storeGet store j)
    ∧ (FirebaseService.update store docId data).2 = dictSet data "id" (Value.str docId) := by
  refine ⟨storeGet_storeSetMerge_self store docId data doc hdoc,
    fun k v hk => dictGet_setMergeDoc_written data doc k v hk hnodup,
    fun k hk => dictGet_setMergeDoc_not_written data doc k hk,
    fun j hj => storeGet_storeSetMerge_ne store docId data j hj,
    rfl⟩

/-- C7 (witness): merging `{"b": 9}` into `{"a": 1, "b": 2}` updates `"b"`,
keeps `"a"`, leaves the other document alone, and returns the data with the
id attached. -/
theorem update_contract_witness :
    storeGet (FirebaseService.update
        [("d", [("a", Value.int 1), ("b", Value.int 2)]), ("e", [("c", Value.int 7)])]
        "d" [("b", Value.int 9)]).1 "d" =
      some (setMergeDoc [("a", Value.int 1), ("b", Value.int 2)] [("b", Value.int 9)])
    ∧ setMergeDoc [("a", Value.int 1), ("b", Value.int 2)] [("b", Value.int 9)] =
        [("a", Value.int 1), ("b", Value.int 9)]
    ∧ storeGet (FirebaseService.update
        [("d", [("a", Value.int 1), ("b", Value.int 2)]), ("e", [("c", Value.int 7)])]
        "d" [("b", Value.int 9)]).1 "e" = some [("c", Value.int 7)]
    ∧ (FirebaseService.update
        [("d", [("a", Value.int 1), ("b", Value.int 2)]), ("e", [("c", Value.int 7)])]
        "d" [("b", Value.int 9)]).2 =
      dictSet [("b", Value.int 9)] "id" (Value.str "d") := by
  have h := update_contract
    [("d", [("a", Value.int 1), ("b", Value.int 2)]), ("e", [("c", Value.int 7)])]
    "d" [("b", Value.int 9)] [("a", Value.int 1), ("b", Value.int 2)]
    (by decide) (by decide)
  exact ⟨h.1, by decide, h.2.2.2.1 "e" (by decide), h.2.2.2.2⟩
